import Mathlib

/-!
Verification development for the NozzleDesignTool repository.

The Python sources are embedded shallowly:

* Arithmetic that the source performs on floats is carried out on `ℚ` where
  every operation of the source is field arithmetic, and on `ℝ` where the
  source applies `sqrt`, `cos`, `tan`, `arctan` or a power with a non-integer
  exponent (embedded with `Real.rpow`).
* The float power `x ** e` with exponent `e = (gamma+1)/(2*(gamma-1))` is, in
  the ℚ embedding, a natural-number power `x ^ n` together with the side
  condition `exponent_matches gamma n`, i.e. `(gamma+1)/(2*(gamma-1)) = n`;
  at every concrete parameter point used below (`gamma = 3`, `n = 1`) the two
  coincide.
* Python exceptions are embedded as `Option`/`Except`/inductive results;
  a function that cannot raise is embedded as a total function.
-/

/- Batteries marks the `Rat` field operations `@[irreducible]`, which blocks
the `decide`-style evaluation used below; the kernel itself ignores
reducibility attributes, so restoring the default setting only lets the
elaborator perform the same reduction the kernel checks. -/
set_option allowUnsafeReducibility true

attribute [semireducible] Rat.mul Rat.add Rat.sub Rat.div Rat.inv Rat.blt Rat.neg

namespace NozzleDesign

/-! ### ℚ embedding of `flow_regimes.py` and of the Newton solvers -/

/-- The side condition under which the ℚ embedding of the float power in the
area-ratio relation is exact: the real exponent `(gamma+1)/(2*(gamma-1))`
of the source equals the natural number `n`. -/
def exponent_matches (gamma : ℚ) (n : ℕ) : Prop :=
  (gamma + 1) / (2 * (gamma - 1)) = (n : ℚ)

instance (gamma : ℚ) (n : ℕ) : Decidable (exponent_matches gamma n) := by
  unfold exponent_matches; infer_instance

/-- Embeds `FlowRegime.calculate_area_ratio` (src/nozzle_design/flow_regimes.py,
lines 23-26); the identical formula also appears as
`NozzleGeometryCalculator.calculate_area_ratio` in engineering_calculations.py
(lines 93-96).  Source:
`(1/mach) * ((2/(gamma+1)) * (1 + (gamma-1)/2 * mach**2))**((gamma+1)/(2*(gamma-1)))`,
with the exponent embedded as the natural number `n` (see `exponent_matches`). -/
def calculate_area_ratio (gamma : ℚ) (n : ℕ) (mach : ℚ) : ℚ :=
  (1 / mach) * ((2 / (gamma + 1)) * (1 + (gamma - 1) / 2 * mach ^ 2)) ^ n

/-- The residual closure `mach_equation` formed inside
`FlowRegime.calculate_mach_from_area` (flow_regimes.py, lines 30-31) and inside
`NozzleGeometryCalculator.calculate_mach_from_area`
(engineering_calculations.py, lines 114-115). -/
def mach_equation (gamma : ℚ) (n : ℕ) (area_ratio : ℚ) (m : ℚ) : ℚ :=
  calculate_area_ratio gamma n m - area_ratio

/-- Result of `FlowRegime._solve_newton` (flow_regimes.py, lines 37-48):
`ok x` is a normal return, `noConverge` is the `ValueError("Newton-Raphson
method did not converge")` raised after `max_iter` iterations, `divZero` is
the `ZeroDivisionError` Python raises on `fx/dfx` when the finite-difference
derivative is exactly zero. -/
inductive NewtonResult where
  | ok (x : ℚ)
  | noConverge
  | divZero
  deriving DecidableEq

/-- Embeds `FlowRegime._solve_newton` (flow_regimes.py, lines 37-48): Newton
iteration with finite-difference derivative of step `h = 1e-6`; returns the
current iterate as soon as `|f x| < tol`, raises after `max_iter` failed
iterations.  The fuel argument is the number of loop iterations still
allowed (`max_iter` at the top call). -/
def solve_newton (f : ℚ → ℚ) (tol : ℚ) : ℚ → ℕ → NewtonResult
  | _, 0 => .noConverge
  | x, k + 1 =>
    let fx := f x
    if |fx| < tol then .ok x
    else
      let dfx := (f (x + 1 / 1000000) - fx) / (1 / 1000000)
      if dfx = 0 then .divZero
      else solve_newton f tol (x - fx / dfx) k

/-- Embeds `FlowRegime.calculate_mach_from_area` (flow_regimes.py, lines
28-35): Newton from the seed `0.5` (subsonic request) or `2.0` (supersonic
request), with the default tolerance `1e-6` and iteration cap `100`.
Lean's total field division gives `1/0 = 0` inside `mach_equation`, where
Python would raise `ZeroDivisionError` at an iterate that is exactly zero;
no run evaluated in this development passes through a zero iterate. -/
def calculate_mach_from_area (gamma : ℚ) (n : ℕ) (area_ratio : ℚ)
    (is_subsonic : Bool) : NewtonResult :=
  solve_newton (mach_equation gamma n area_ratio) (1 / 1000000)
    (if is_subsonic then 1 / 2 else 2) 100

/-- The round trip of claim C1 as a boolean check: compute
`calculate_area_ratio` at `m`, invert it with `calculate_mach_from_area` on
the branch matching `m`'s side of `1.0`, and test whether the recovered Mach
number is within `tolM` of `m`.  A solver failure counts as `false` (no value
is recovered). -/
def roundtrip_within (gamma : ℚ) (n : ℕ) (m tolM : ℚ) : Bool :=
  match calculate_mach_from_area gamma n (calculate_area_ratio gamma n m)
      (decide (m < 1)) with
  | .ok r => decide (|r - m| ≤ tolM)
  | _ => false

/-- Embeds the loop of `NozzleGeometryCalculator.calculate_mach_from_area`
(engineering_calculations.py, lines 112-126): at most 10 Newton iterations,
and then `return m` unconditionally - the final iterate is returned whether
or not the residual test `|f| < 1e-6` ever succeeded.  `none` embeds the
`ZeroDivisionError` raised when an iterate is exactly zero (the `1/m` inside
the residual), when the shifted iterate `m + 1e-6` is exactly zero, or when
the finite difference is exactly zero. -/
def eng_newton_loop (gamma : ℚ) (n : ℕ) (area_ratio : ℚ) : ℚ → ℕ → Option ℚ
  | m, 0 => some m
  | m, k + 1 =>
    if m = 0 then none
    else
      let f := mach_equation gamma n area_ratio m
      if |f| < 1 / 1000000 then some m
      else if m + 1 / 1000000 = 0 then none
      else
        let df := (mach_equation gamma n area_ratio (m + 1 / 1000000) - f) /
          (1 / 1000000)
        if df = 0 then none
        else eng_newton_loop gamma n area_ratio (m - f / df) k

/-- The wrapper of `eng_newton_loop` with the source's seed `m = 2.0` and
loop bound `range(10)` (engineering_calculations.py, lines 117-126). -/
def eng_calculate_mach_from_area (gamma : ℚ) (n : ℕ) (area_ratio : ℚ) :
    Option ℚ :=
  eng_newton_loop gamma n area_ratio 2 10

/-- Boolean check for claim C2: the engineering Mach-from-area solver returns
normally although the residual of the returned value is not below the `1e-6`
tolerance - a silent non-converged return. -/
def eng_returns_nonconverged (gamma : ℚ) (n : ℕ) (area_ratio : ℚ) : Bool :=
  match eng_calculate_mach_from_area gamma n area_ratio with
  | some m => decide (1 / 1000000 ≤ |mach_equation gamma n area_ratio m|)
  | none => false

/-- Boolean check for claim C7: at `area_ratio = 1.0` the flow-regimes solver
returns normally, with a value different from `1.0` whose residual is below
the tolerance (an approximate root, not the exact tie-break value `1.0`). -/
def solver_at_one (gamma : ℚ) (n : ℕ) (is_subsonic : Bool) : Bool :=
  match calculate_mach_from_area gamma n 1 is_subsonic with
  | .ok r => decide (r ≠ 1 ∧ |mach_equation gamma n 1 r| < 1 / 1000000)
  | _ => false

/-- Embeds the comparison chain of `FlowRegime.determine_flow_regime`
(flow_regimes.py, lines 64-72).  In the source the two ratios are computed
just above the chain (lines 57-62): `critical_pressure_ratio =
(2/(gamma+1))**(gamma/(gamma-1))` and `design_pressure_ratio =
(1 + (gamma-1)/2 * design_mach**2)**(-gamma/(gamma-1))` with `design_mach`
obtained from `calculate_mach_from_area(area_ratio, is_subsonic=False)`;
both are irrational real powers, strictly between 0 and 1 and ordered
`design < critical` for `gamma > 1` and `area_ratio > 1`, and they enter the
chain only through the products below, so the chain is embedded as a function
of the two computed ratio values. -/
def determine_flow_regime (inlet_pressure back_pressure : ℚ)
    (critical_pressure_ratio design_pressure_ratio : ℚ) : String :=
  if back_pressure > inlet_pressure then "subsonic"
  else if back_pressure > inlet_pressure * critical_pressure_ratio then "choked"
  else if back_pressure > inlet_pressure * design_pressure_ratio then
    "over-expanded"
  else "under-expanded"

/-! ### Shared data structures of the ℝ embeddings -/

/-- Embeds the `GasProperties` dataclass (thermodynamics.py, lines 6-15). -/
structure GasProperties where
  name : String
  molecular_weight : ℝ
  gamma : ℝ
  cp : ℝ
  temperature : ℝ
  pressure : ℝ
  density : ℝ

/-- Embeds the `CombustionState` dataclass (combustion.py, lines 6-14). -/
structure CombustionState where
  pressure : ℝ
  temperature : ℝ
  fuel_oxidizer_ratio : ℝ
  thrust : ℝ
  mass_flow : ℝ
  characteristic_velocity : ℝ
  gas_properties : GasProperties

/-- Embeds the `MaterialProperties` dataclass
(engineering_calculations.py, lines 8-17). -/
structure MaterialProperties where
  name : String
  yield_strength : ℝ
  thermal_conductivity : ℝ
  specific_heat : ℝ
  density : ℝ
  max_temperature : ℝ
  emissivity : ℝ

/-- Embeds the `Material` dataclass (materials.py, lines 6-17). -/
structure Material where
  name : String
  density : ℝ
  thermal_conductivity : ℝ
  specific_heat : ℝ
  thermal_expansion : ℝ
  elastic_modulus : ℝ
  yield_strength : ℝ
  melting_point : ℝ
  gamma : ℝ

/-- Embeds the `NozzleSegment` dataclass, defined identically in
nozzle_geometry.py (lines 11-25) and engineering_calculations.py
(lines 27-41). -/
structure NozzleSegment where
  start_x : ℝ
  end_x : ℝ
  start_radius : ℝ
  end_radius : ℝ
  angle : ℝ
  length : ℝ
  area_ratio : ℝ
  mach_number : ℝ
  pressure : ℝ
  temperature : ℝ
  wall_temperature : ℝ
  heat_flux : ℝ
  deriving Inhabited

/-- The performance-metrics dictionary returned by both
`NozzleGeometryCalculator._calculate_performance_metrics`
(nozzle_geometry.py, lines 329-334) and
`NozzleGeometryCalculator.calculate_performance_metrics`
(engineering_calculations.py, lines 369-374): keys `thrust_coefficient`,
`specific_impulse`, `efficiency`, `exit_mach`. -/
structure PerfMetrics where
  thrust_coefficient : ℝ
  specific_impulse : ℝ
  efficiency : ℝ
  exit_mach : ℝ

/-- Python exceptions surfaced by the embedded call chains: `typeErr` is the
`TypeError` of a keyword-argument binding failure, `attrErr` the
`AttributeError` of reading a missing attribute. -/
inductive PyErr where
  | typeErr
  | attrErr
  deriving DecidableEq

/-- The claimed invariant of the diverging section of a segment list
(spec section 3, `NozzleSegment`): per-segment `area_ratio` non-decreasing
with increasing axial position, and `start_radius ≤ end_radius`, over the
segments after the throat segment (index `≥ 1`).  Out-of-range indices read
the `default` segment via `List.getD`. -/
def diverging_invariant (segs : List NozzleSegment) : Prop :=
  (∀ i j : ℕ, 1 ≤ i → i ≤ j → j < segs.length →
    (segs.getD i default).area_ratio ≤ (segs.getD j default).area_ratio) ∧
  (∀ i : ℕ, 1 ≤ i → i < segs.length →
    (segs.getD i default).start_radius ≤ (segs.getD i default).end_radius)

/-! ### ℝ embedding of `geometries.py` -/

namespace Geometries

/-- Embeds `ConicalNozzle` (geometries.py, lines 30-64).  The base-class
fields of `NozzleGeometry` (lines 8-15) are inlined. -/
structure ConicalNozzle where
  throat_radius : ℝ
  exit_radius : ℝ
  length : ℝ
  expansion_ratio : ℝ
  wall_angle : ℝ

/-- Embeds `ConicalNozzle.__init__` (geometries.py, lines 33-53):
`expansion_ratio = (exit_radius / throat_radius) ** 2`, no validation. -/
noncomputable def ConicalNozzle.init
    (throat_radius exit_radius length wall_angle : ℝ) : ConicalNozzle :=
  { throat_radius := throat_radius
    exit_radius := exit_radius
    length := length
    expansion_ratio := (exit_radius / throat_radius) ^ 2
    wall_angle := wall_angle }

/-- Embeds `ConicalNozzle.get_radius` (geometries.py, lines 55-64):
`throat_radius + x * tan(radians(wall_angle))`, with
`np.radians(d) = d * pi / 180`. -/
noncomputable def ConicalNozzle.get_radius (c : ConicalNozzle) (x : ℝ) : ℝ :=
  c.throat_radius + x * Real.tan (c.wall_angle * Real.pi / 180)

/-- Embeds `AerospikeNozzle` (geometries.py, lines 182-208), base-class
fields inlined. -/
structure AerospikeNozzle where
  throat_radius : ℝ
  exit_radius : ℝ
  length : ℝ
  expansion_ratio : ℝ
  wall_angle : ℝ
  spike_angle : ℝ

/-- Embeds `AerospikeNozzle.__init__` (geometries.py, lines 185-208): it
stores the parameters and `expansion_ratio = (exit_radius/throat_radius)**2`;
it performs no validation of any kind and cannot raise. -/
noncomputable def AerospikeNozzle.init
    (throat_radius exit_radius length wall_angle spike_angle : ℝ) :
    AerospikeNozzle :=
  { throat_radius := throat_radius
    exit_radius := exit_radius
    length := length
    expansion_ratio := (exit_radius / throat_radius) ^ 2
    wall_angle := wall_angle
    spike_angle := spike_angle }

/-- Embeds `AerospikeNozzle.get_radius` (geometries.py, lines 210-226):
`spike_radius = throat_radius + x*tan(radians(spike_angle))`,
`outer_radius = throat_radius + x*tan(radians(wall_angle))`, and the
returned annular flow-area radius is `outer_radius - spike_radius`. -/
noncomputable def AerospikeNozzle.get_radius (a : AerospikeNozzle) (x : ℝ) :
    ℝ :=
  let spike_radius := a.throat_radius + x * Real.tan (a.spike_angle * Real.pi / 180)
  let outer_radius := a.throat_radius + x * Real.tan (a.wall_angle * Real.pi / 180)
  outer_radius - spike_radius

end Geometries

/-! ### ℝ embedding of `nozzle_geometry.py` (with `flow_solver.py`'s
signature for the failing call of claim C9) -/

namespace NozzleGeo

/-- The `chamber_state` dictionary consumed by
`NozzleGeometryCalculator` in nozzle_geometry.py: the keys read by
`calculate_geometry`, `_calculate_throat_area` and
`_calculate_performance_metrics` (lines 61-65, 190-195, 302-326). -/
structure NGChamberState where
  gamma : ℝ
  mass_flow : ℝ
  pressure : ℝ
  temperature : ℝ
  gas_constant : ℝ
  area_ratio : ℝ
  ambient_pressure : ℝ

/-- Embeds `np.linspace(a, b, num)` at index `i`:
`a + (b - a) * i / (num - 1)`. -/
noncomputable def linspace (a b : ℝ) (num : ℕ) (i : ℕ) : ℝ :=
  a + (b - a) * i / ((num : ℝ) - 1)

/-- The start radius of segment `i` computed by
`NozzleGeometryCalculator._generate_segments` (nozzle_geometry.py,
lines 234-241): `r = np.linspace(throat_radius, exit_radius, 50)`,
`start_radius = r[i]`. -/
noncomputable def gen_start_radius (throat_radius exit_radius : ℝ) (i : ℕ) : ℝ :=
  linspace throat_radius exit_radius 50 i

/-- The end radius of segment `i` of `_generate_segments` (line 242):
`end_radius = r[i + 1]`. -/
noncomputable def gen_end_radius (throat_radius exit_radius : ℝ) (i : ℕ) : ℝ :=
  linspace throat_radius exit_radius 50 (i + 1)

/-- The per-segment area ratio of `_generate_segments` (line 252):
`(end_radius / throat_radius) ** 2`. -/
noncomputable def gen_area_ratio (throat_radius exit_radius : ℝ) (i : ℕ) : ℝ :=
  (gen_end_radius throat_radius exit_radius i / throat_radius) ^ 2

/-- The parameter names of `FlowSolver.calculate_flow_properties`
(flow_solver.py, lines 20-23), none of which has a default value. -/
def flow_properties_params : List String :=
  ["mach", "total_pressure", "total_temperature"]

/-- The keyword-argument names used at the call site inside
`_generate_segments` (nozzle_geometry.py, lines 255-258):
`self.flow_solver.calculate_flow_properties(area_ratio=..., chamber_state=...)`. -/
def generate_segments_kwargs : List String :=
  ["area_ratio", "chamber_state"]

/-- Python's binding of a keyword-only call against a signature without
defaults: it succeeds exactly when every provided keyword is a parameter
name (else `TypeError: unexpected keyword argument`) and every parameter
receives a value (else `TypeError: missing required argument`). -/
def py_kwargs_bind (params kwargs : List String) : Bool :=
  kwargs.all (fun k => params.contains k) &&
    params.all (fun p => kwargs.contains p)

/-- Embeds `NozzleGeometryCalculator._calculate_throat_area`
(nozzle_geometry.py, lines 181-205). -/
noncomputable def calculate_throat_area (c : NGChamberState) : ℝ :=
  let pr_crit := (2 / (c.gamma + 1)) ^ (c.gamma / (c.gamma - 1))
  let pt := c.pressure * pr_crit
  let Tt := c.temperature * (2 / (c.gamma + 1))
  c.mass_flow * Real.sqrt (c.gas_constant * Tt) / (pt * Real.sqrt c.gamma)

/-- Embeds `NozzleGeometryCalculator._generate_segments` (nozzle_geometry.py,
lines 207-285).  Each of the 49 loop iterations computes the segment geometry
(linspace positions and radii, angle, length, area ratio) and then calls
`self.flow_solver.calculate_flow_properties(area_ratio=..., chamber_state=...)`;
that keyword set does not bind against `FlowSolver.calculate_flow_properties
(mach, total_pressure, total_temperature)` (flow_solver.py, lines 20-23), so
Python raises `TypeError` in the first iteration.  The `ok` branch of the
binding test is unreachable (see the theorems below); its flow and thermal
fields, which in the source would come out of the failed call, are filled
with `0`. -/
noncomputable def generate_segments
    (throat_radius exit_radius length : ℝ) (_divergence_angle : ℝ)
    (_c : NGChamberState) (_material : Material) :
    Except PyErr (List NozzleSegment) :=
  (List.range 49).mapM fun i =>
    let start_x := linspace 0 length 50 i
    let end_x := linspace 0 length 50 (i + 1)
    let start_radius := gen_start_radius throat_radius exit_radius i
    let end_radius := gen_end_radius throat_radius exit_radius i
    let angle_deg := Real.arctan ((end_radius - start_radius) / (end_x - start_x)) * 180 / Real.pi
    let seg_length := Real.sqrt ((end_x - start_x) ^ 2 + (end_radius - start_radius) ^ 2)
    let area_ratio := gen_area_ratio throat_radius exit_radius i
    if py_kwargs_bind flow_properties_params generate_segments_kwargs then
      Except.ok
        { start_x := start_x, end_x := end_x, start_radius := start_radius
          end_radius := end_radius, angle := angle_deg, length := seg_length
          area_ratio := area_ratio, mach_number := 0, pressure := 0
          temperature := 0, wall_temperature := 0, heat_flux := 0 }
    else Except.error PyErr.typeErr

/-- Embeds `NozzleGeometryCalculator._calculate_thrust_coefficient`
(nozzle_geometry.py, lines 336-362). -/
noncomputable def calculate_thrust_coefficient
    (exit_pressure exit_mach chamber_pressure ambient_pressure gamma : ℝ) : ℝ :=
  let momentum_term := exit_mach *
    Real.sqrt ((2 / (gamma - 1)) * (1 + (gamma - 1) / 2 * exit_mach ^ 2))
  let pressure_term := (exit_pressure - ambient_pressure) / chamber_pressure
  momentum_term + pressure_term

/-- Embeds `NozzleGeometryCalculator._calculate_specific_impulse`
(nozzle_geometry.py, lines 364-381). -/
noncomputable def calculate_specific_impulse
    (thrust_coeff chamber_pressure throat_area mass_flow : ℝ) : ℝ :=
  thrust_coeff * chamber_pressure * throat_area / (mass_flow * 9.81)

/-- Embeds `NozzleGeometryCalculator._calculate_efficiency`
(nozzle_geometry.py, lines 383-395): the plain quotient, with no range check
and no clamping. -/
noncomputable def calculate_efficiency (thrust_coeff ideal_thrust_coeff : ℝ) : ℝ :=
  thrust_coeff / ideal_thrust_coeff

/-- Embeds `NozzleGeometryCalculator._calculate_ideal_thrust_coefficient`
(nozzle_geometry.py, lines 397-412). -/
noncomputable def calculate_ideal_thrust_coefficient
    (chamber_pressure ambient_pressure gamma : ℝ) : ℝ :=
  let pr := ambient_pressure / chamber_pressure
  Real.sqrt (2 * gamma ^ 2 / (gamma - 1) *
    (2 / (gamma + 1)) ^ ((gamma + 1) / (gamma - 1)) *
    (1 - pr ^ ((gamma - 1) / gamma)))

/-- Embeds `NozzleGeometryCalculator._calculate_performance_metrics`
(nozzle_geometry.py, lines 287-334).  `segments[-1]` and `segments[0]` are
embedded with `List.getLastD`/`List.headD` over the `default` segment; the
source raises `IndexError` on an empty list, and every evaluation below uses
a non-empty list.  The function performs no range check on any of the
returned values and cannot raise on a non-empty list. -/
noncomputable def calculate_performance_metrics
    (segments : List NozzleSegment) (c : NGChamberState) : PerfMetrics :=
  let exit_segment := segments.getLastD default
  let thrust_coeff := calculate_thrust_coefficient exit_segment.pressure
    exit_segment.mach_number c.pressure c.ambient_pressure c.gamma
  let isp := calculate_specific_impulse thrust_coeff c.pressure
    ((segments.headD default).start_radius ^ 2 * Real.pi) c.mass_flow
  let efficiency := calculate_efficiency thrust_coeff
    (calculate_ideal_thrust_coefficient c.pressure c.ambient_pressure c.gamma)
  { thrust_coefficient := thrust_coeff
    specific_impulse := isp
    efficiency := efficiency
    exit_mach := exit_segment.mach_number }

/-- Embeds the `NozzleGeometry` dataclass of nozzle_geometry.py
(lines 27-31). -/
structure NozzleGeometry where
  segments : List NozzleSegment
  performance_metrics : PerfMetrics

/-- Embeds `NozzleGeometryCalculator.calculate_geometry` (nozzle_geometry.py,
lines 44-84): throat and exit radii from the chamber state, then
`_generate_segments` (which fails, claim C9), then the performance metrics. -/
noncomputable def calculate_geometry
    (divergence_angle length_ratio : ℝ) (c : NGChamberState)
    (material : Material) : Except PyErr NozzleGeometry := do
  let throat_area := calculate_throat_area c
  let throat_radius := Real.sqrt (throat_area / Real.pi)
  let exit_area := throat_area * c.area_ratio
  let exit_radius := Real.sqrt (exit_area / Real.pi)
  let length := throat_radius * length_ratio
  let segments ← generate_segments throat_radius exit_radius length
    divergence_angle c material
  let metrics := calculate_performance_metrics segments c
  pure { segments := segments, performance_metrics := metrics }

end NozzleGeo

/-! ### ℝ embedding of `engineering_calculations.py` -/

namespace EngCalc

/-- Embeds the area-ratio relation over ℝ with the float power as
`Real.rpow` - the formula of `NozzleGeometryCalculator.calculate_area_ratio`
(engineering_calculations.py, lines 93-96) at a scalar `gamma`. -/
noncomputable def area_ratio_real (gamma m : ℝ) : ℝ :=
  (1 / m) * ((2 / (gamma + 1)) * (1 + (gamma - 1) / 2 * m ^ 2)) ^
    ((gamma + 1) / (2 * (gamma - 1)))

/-- The residual of `calculate_mach_from_area` over ℝ
(engineering_calculations.py, lines 114-115). -/
noncomputable def mach_equation_real (gamma area_ratio m : ℝ) : ℝ :=
  area_ratio_real gamma m - area_ratio

/-- The Newton loop of `NozzleGeometryCalculator.calculate_mach_from_area`
over ℝ (engineering_calculations.py, lines 117-126): at most 10 iterations
from the seed, then the final iterate is returned unconditionally.
Divisions by zero, which raise in Python, are embedded with Lean's total
division; no evaluation below reaches one. -/
noncomputable def newton_loop_real (gamma area_ratio : ℝ) : ℝ → ℕ → ℝ
  | m, 0 => m
  | m, k + 1 =>
    let f := mach_equation_real gamma area_ratio m
    if |f| < 1 / 1000000 then m
    else
      let df := (mach_equation_real gamma area_ratio (m + 1 / 1000000) - f) /
        (1 / 1000000)
      newton_loop_real gamma area_ratio (m - f / df) k

/-- `calculate_mach_from_area` over ℝ: seed `2.0`, 10 iterations. -/
noncomputable def calculate_mach_from_area_real (gamma area_ratio : ℝ) : ℝ :=
  newton_loop_real gamma area_ratio 2 10

/-- Embeds `NozzleGeometryCalculator.calculate_flow_properties`
(engineering_calculations.py, lines 128-143): static pressure. -/
noncomputable def flow_pressure (chamber : CombustionState) (mach : ℝ) : ℝ :=
  chamber.pressure *
    (1 + (chamber.gas_properties.gamma - 1) / 2 * mach ^ 2) ^
      (-(chamber.gas_properties.gamma / (chamber.gas_properties.gamma - 1)))

/-- Embeds `calculate_flow_properties`: static temperature. -/
noncomputable def flow_temperature (chamber : CombustionState) (mach : ℝ) : ℝ :=
  chamber.temperature *
    (1 + (chamber.gas_properties.gamma - 1) / 2 * mach ^ 2) ^ (-1 : ℤ)

/-- Embeds the contour function of
`NozzleGeometryCalculator.calculate_rao_contour` (engineering_calculations.py,
lines 145-175) at axial position `x`: the throat circular arc for
`x < 0.15*length`, the first parabolic section for `x < 0.6*length`, the
second parabolic section otherwise.  `THRROAT_SEGMENT_RATIO = 0.15 = 3/20`,
`R1 = 1.5*throat_radius`, `R2 = 0.382*throat_radius = 191/500*throat_radius`,
`theta_n = radians(divergence_angle)`, `theta_e = radians(7.5)`.  Positions
and geometric parameters are rational (they are linspace fractions of the
inputs); the values are real. -/
noncomputable def rao_contour_y
    (throat_radius exit_radius length divergence_angle : ℚ) (x : ℚ) : ℝ :=
  if x < length * (3 / 20) then
    (throat_radius : ℝ) + (3 / 2) * (throat_radius : ℝ) -
      Real.sqrt (((3 / 2) * (throat_radius : ℝ)) ^ 2 -
        ((x : ℝ) - (length : ℝ) * (3 / 20)) ^ 2)
  else if x < length * (3 / 5) then
    (throat_radius : ℝ) + (191 / 500) * (throat_radius : ℝ) *
      (1 - Real.cos ((divergence_angle : ℝ) * Real.pi / 180 *
        (((x : ℝ) - (length : ℝ) * (3 / 20)) / ((length : ℝ) * (9 / 20)))))
  else
    (exit_radius : ℝ) - ((exit_radius : ℝ) - (throat_radius : ℝ)) *
      (1 - ((x : ℝ) - (length : ℝ) * (3 / 5)) / ((length : ℝ) * (2 / 5))) ^ 2 *
      Real.cos ((15 / 2 : ℝ) * Real.pi / 180)

/-- Floor of a non-negative rational as a natural number, via the truncating
integer division of the numerator by the denominator (for a non-negative
argument truncation and floor agree). -/
def rat_floor_nat (a : ℚ) : ℕ :=
  (a.num / (a.den : ℤ)).toNat

/-- Embeds `np.interp(q, xp, fp)` where `xp = np.linspace(0, length, 100)`
and `fp` are the Rao-contour values (the `np.interp` calls of
`calculate_segments`, engineering_calculations.py, lines 293-294).  For
`length > 0` the grid `x_j = length*j/99` is strictly increasing, and
`np.interp` clamps at the ends and interpolates linearly between the
bracketing grid points `j = max {j ≤ 98 | x_j ≤ q}` and `j+1` inside. -/
noncomputable def interp_rao
    (throat_radius exit_radius length divergence_angle : ℚ) (q : ℚ) : ℝ :=
  if q ≤ 0 then rao_contour_y throat_radius exit_radius length divergence_angle 0
  else if length ≤ q then
    rao_contour_y throat_radius exit_radius length divergence_angle length
  else
    let j : ℕ := min 98 (rat_floor_nat (q * 99 / length))
    let xj : ℚ := length * j / 99
    let xj1 : ℚ := length * (j + 1) / 99
    rao_contour_y throat_radius exit_radius length divergence_angle xj +
      (rao_contour_y throat_radius exit_radius length divergence_angle xj1 -
        rao_contour_y throat_radius exit_radius length divergence_angle xj) *
        (((q - xj) / (xj1 - xj) : ℚ) : ℝ)

/-- Embeds the `HeatTransferResult` dataclass (engineering_calculations.py,
lines 19-25). -/
structure HeatTransferResult where
  wall_temperature : ℝ
  heat_flux : ℝ
  cooling_requirement : ℝ
  safety_factor : ℝ

/-- Embeds `NozzleGeometryCalculator.calculate_heat_transfer`
(engineering_calculations.py, lines 177-218): recovery factor
`sqrt(Pr) = sqrt(0.7)`, Bartz-style coefficient
`h = 0.026 * M^0.8 * cp^0.8 * P^0.8 * D^-0.2 * viscosity^-0.2` with
`viscosity = 1.5e-5` and `D = 2*end_radius`, wall thickness `0.002`. -/
noncomputable def calculate_heat_transfer (segment : NozzleSegment)
    (chamber : CombustionState) (material : MaterialProperties) :
    HeatTransferResult :=
  let gamma := chamber.gas_properties.gamma
  let recovery_factor := Real.sqrt (7 / 10)
  let recovery_temp := segment.temperature *
    (1 + recovery_factor * (gamma - 1) / 2 * segment.mach_number ^ 2)
  let D := 2 * segment.end_radius
  let viscosity : ℝ := 15 / 1000000
  let cp := chamber.gas_properties.cp
  let h := (26 / 1000) * segment.mach_number ^ (8 / 10 : ℝ) *
    cp ^ (8 / 10 : ℝ) * chamber.pressure ^ (8 / 10 : ℝ) *
    D ^ (-(2 / 10) : ℝ) * viscosity ^ (-(2 / 10) : ℝ)
  let heat_flux := h * (recovery_temp - material.max_temperature)
  let thermal_resistance := (2 / 1000) / material.thermal_conductivity
  let wall_temp := recovery_temp - heat_flux * thermal_resistance
  let segment_area := Real.pi * (segment.end_radius ^ 2 - segment.start_radius ^ 2)
  let cooling_requirement := heat_flux * segment_area
  let safety_factor := min
    (material.yield_strength / (segment.pressure * segment.end_radius / (2 / 1000)))
    ((material.max_temperature - wall_temp) / wall_temp)
  { wall_temperature := wall_temp
    heat_flux := heat_flux
    cooling_requirement := cooling_requirement
    safety_factor := safety_factor }

/-- The throat segment built by `NozzleGeometryCalculator.calculate_segments`
(engineering_calculations.py, lines 258-279): `start_radius = 0.8 *
throat_radius`, `area_ratio = 1.0`, `mach = 1.0`, throat pressure and
temperature from the chamber state, wall temperature and heat flux from
`calculate_heat_transfer` applied to the segment (the source mutates the two
fields after construction; the embedding builds the record once with the
computed values). -/
noncomputable def throat_segment (throat_radius length : ℚ)
    (chamber : CombustionState) (material : MaterialProperties) :
    NozzleSegment :=
  let gamma := chamber.gas_properties.gamma
  let throat_length : ℚ := length * (3 / 20)
  let base : NozzleSegment :=
    { start_x := 0, end_x := (throat_length : ℝ)
      start_radius := (throat_radius : ℝ) * (4 / 5)
      end_radius := (throat_radius : ℝ), angle := 0
      length := (throat_length : ℝ), area_ratio := 1, mach_number := 1
      pressure := chamber.pressure * (2 / (gamma + 1)) ^ (gamma / (gamma - 1))
      temperature := chamber.temperature * (2 / (gamma + 1))
      wall_temperature := 0, heat_flux := 0 }
  let ht := calculate_heat_transfer base chamber material
  { base with wall_temperature := ht.wall_temperature, heat_flux := ht.heat_flux }

/-- The diverging segment `i` (for `1 ≤ i ≤ 9`) built by
`calculate_segments` (engineering_calculations.py, lines 281-328):
`throat_length = 0.15*length`, `segment_length = (length - throat_length)/9`,
radii from `np.interp` over the Rao contour, angle from `arctan2` (its first
argument over the second, positive, one), `area_ratio =
(end_radius/throat_radius)**2`, Mach from the 10-iteration Newton solver,
pressure and temperature from `calculate_flow_properties`, wall data from
`calculate_heat_transfer` (fields set after construction in the source). -/
noncomputable def div_segment
    (throat_radius exit_radius length divergence_angle : ℚ)
    (chamber : CombustionState) (material : MaterialProperties) (i : ℕ) :
    NozzleSegment :=
  let gamma := chamber.gas_properties.gamma
  let throat_length : ℚ := length * (3 / 20)
  let segment_length : ℚ := (length - throat_length) / 9
  let start_x : ℚ := throat_length + (i - 1 : ℕ) * segment_length
  let end_x : ℚ := throat_length + i * segment_length
  let start_radius :=
    interp_rao throat_radius exit_radius length divergence_angle start_x
  let end_radius :=
    interp_rao throat_radius exit_radius length divergence_angle end_x
  let angle := Real.arctan ((end_radius - start_radius) / (segment_length : ℝ)) *
    180 / Real.pi
  let area_ratio := (end_radius / (throat_radius : ℝ)) ^ 2
  let mach := calculate_mach_from_area_real gamma area_ratio
  let base : NozzleSegment :=
    { start_x := (start_x : ℝ), end_x := (end_x : ℝ)
      start_radius := start_radius, end_radius := end_radius
      angle := angle, length := (segment_length : ℝ)
      area_ratio := area_ratio, mach_number := mach
      pressure := flow_pressure chamber mach
      temperature := flow_temperature chamber mach
      wall_temperature := 0, heat_flux := 0 }
  let ht := calculate_heat_transfer base chamber material
  { base with wall_temperature := ht.wall_temperature, heat_flux := ht.heat_flux }

/-- Embeds `NozzleGeometryCalculator.calculate_segments`
(engineering_calculations.py, lines 247-330): the throat segment followed by
the diverging segments `i = 1, ..., 9` (`N_SEGMENTS = 10`). -/
noncomputable def calculate_segments
    (throat_radius exit_radius length divergence_angle : ℚ)
    (chamber : CombustionState) (material : MaterialProperties) :
    List NozzleSegment :=
  throat_segment throat_radius length chamber material ::
    (List.range' 1 9).map
      (div_segment throat_radius exit_radius length divergence_angle chamber
        material)

/-- Embeds `NozzleGeometryCalculator.calculate_thrust_coefficient`
(engineering_calculations.py, lines 332-345).  After computing `term1`, the
source executes `area_ratio = self.calculate_area_ratio(mach, gamma)`; the
callee's second parameter is annotated `gas_properties: GasProperties` and
its body reads `gas_properties.gamma` (lines 93-96), but the float `gamma`
is passed, and a Python float has no attribute `gamma`: every call raises
`AttributeError` there.  (`term1` is bound first, as in the source, and then
discarded by the raise.) -/
noncomputable def calculate_thrust_coefficient
    (_mach : ℝ) (gamma pressure_ratio : ℝ) : Except PyErr ℝ :=
  let _term1 := Real.sqrt (2 * gamma ^ 2 / (gamma - 1) *
    (2 / (gamma + 1)) ^ ((gamma + 1) / (gamma - 1)) *
    (1 - pressure_ratio ^ ((gamma - 1) / gamma)))
  Except.error PyErr.attrErr

/-- Embeds `NozzleGeometryCalculator.calculate_performance_metrics`
(engineering_calculations.py, lines 347-374): exit Mach from the
10-iteration Newton solver, thrust coefficient (which raises, see
`calculate_thrust_coefficient`), specific impulse, and an efficiency that is
the quotient of two `calculate_thrust_coefficient` calls with identical
arguments. -/
noncomputable def calculate_performance_metrics
    (chamber : CombustionState) (back_pressure area_ratio : ℝ)
    (_divergence_angle : ℝ) : Except PyErr PerfMetrics := do
  let gamma := chamber.gas_properties.gamma
  let exit_mach := calculate_mach_from_area_real gamma area_ratio
  let thrust_coef ← calculate_thrust_coefficient exit_mach gamma
    (back_pressure / chamber.pressure)
  let isp := thrust_coef * chamber.characteristic_velocity / 9.81
  let denom ← calculate_thrust_coefficient exit_mach gamma
    (back_pressure / chamber.pressure)
  let efficiency := thrust_coef / denom
  pure { thrust_coefficient := thrust_coef
         specific_impulse := isp
         efficiency := efficiency
         exit_mach := exit_mach }

end EngCalc

/-! ### Concrete instances used by the counterexamples -/

/-- A concrete combustion-chamber state (`gamma = 1.4`). -/
noncomputable def chamber0 : CombustionState :=
  { pressure := 1000000, temperature := 3000, fuel_oxidizer_ratio := 1
    thrust := 0, mass_flow := 10, characteristic_velocity := 1500
    gas_properties :=
      { name := "exhaust", molecular_weight := 1 / 50, gamma := 7 / 5
        cp := 1200, temperature := 3000, pressure := 1000000, density := 1 } }

/-- The copper preset of `DEFAULT_MATERIALS`
(engineering_calculations.py, lines 64-72). -/
noncomputable def copper : MaterialProperties :=
  { name := "Copper", yield_strength := 250000000
    thermal_conductivity := 400, specific_heat := 385, density := 8960
    max_temperature := 1356, emissivity := 1 / 10 }

/-- The segment list of claim C4's counterexample:
`calculate_segments(throat_radius=1, exit_radius=1, length=1,
divergence_angle=15)` - an expansion ratio of exactly 1
(`exit_radius = throat_radius`, allowed by the spec's
`exit_radius ≥ throat_radius`). -/
noncomputable def ce_segments : List NozzleSegment :=
  EngCalc.calculate_segments 1 1 1 15 chamber0 copper

/-- The exit segment of claim C5's counterexample, as a function of the
chamber pressure: exit static pressure twice the chamber pressure, exit Mach
`3/4`. -/
noncomputable def c5_segment (P0 : ℝ) : NozzleSegment :=
  { start_x := 0, end_x := 1, start_radius := 1 / 10, end_radius := 1 / 10
    angle := 0, length := 1, area_ratio := 1, mach_number := 3 / 4
    pressure := 2 * P0, temperature := 1000, wall_temperature := 500
    heat_flux := 0 }

/-- The chamber dictionary of claim C5's counterexample: `gamma = 3`,
ambient pressure `0`. -/
noncomputable def c5_chamber (P0 : ℝ) : NozzleGeo.NGChamberState :=
  { gamma := 3, mass_flow := 10, pressure := P0, temperature := 3000
    gas_constant := 287, area_ratio := 1, ambient_pressure := 0 }

/-! ### Theorems -/

/-- Helper: whenever `_solve_newton` returns normally, the residual of the
returned iterate is below the tolerance - the solver never returns a
non-converged value (flow_regimes.py, lines 37-48). -/
theorem solve_newton_ok_residual (f : ℚ → ℚ) (tol : ℚ) :
    ∀ (k : ℕ) (x y : ℚ), solve_newton f tol x k = .ok y → |f y| < tol := by
  intro k
  induction k with
  | zero => intro x y h; simp [solve_newton] at h
  | succ k ih =>
    intro x y h
    simp only [solve_newton] at h
    split_ifs at h with h1 h2
    all_goals first
      | (exact ih _ _ h)
      | (injection h with hh; exact hh ▸ h1)

/-- Helper: a Newton call whose seed already satisfies the residual test
returns the seed itself, with no iteration performed. -/
theorem solve_newton_seed_exact (f : ℚ → ℚ) (tol x : ℚ) (k : ℕ)
    (hf : f x = 0) (htol : 0 < tol) : solve_newton f tol x (k + 1) = .ok x := by
  simp only [solve_newton, hf, abs_zero]
  rw [if_pos htol]

/-- C1, counterexample: the claim fails as stated.  For `gamma = 3` (where
the area-ratio exponent `(gamma+1)/(2*(gamma-1))` is the natural number `1`)
and `M = 1/1000 > 0`, the subsonic-branch inversion of
`calculate_area_ratio 3 1 (1/1000)` converges to the other (reciprocal,
supersonic) root of the area-ratio equation, near `1000.0`, so the recovered
Mach number is not within `1e-4` of `M`. -/
theorem C1_counterexample :
    (1 : ℚ) < 3 ∧ (0 : ℚ) < 1 / 1000 ∧ exponent_matches 3 1 ∧
    roundtrip_within 3 1 (1 / 1000) (1 / 10000) = false := by
  refine ⟨by norm_num, by norm_num, by decide, by decide⟩

/-- C1, amended: the round trip is exact (and performs no iteration) at the
two Newton seeds: for every `gamma` and exponent `n`, inverting
`calculate_area_ratio gamma n (1/2)` on the subsonic branch returns exactly
`1/2` and inverting `calculate_area_ratio gamma n 2` on the supersonic
branch returns exactly `2`; away from the seeds the round trip can converge
to the wrong branch (see the counterexample). -/
theorem C1_amended (gamma : ℚ) (n : ℕ) (_h : exponent_matches gamma n) :
    calculate_mach_from_area gamma n (calculate_area_ratio gamma n (1 / 2))
      true = .ok (1 / 2) ∧
    calculate_mach_from_area gamma n (calculate_area_ratio gamma n 2)
      false = .ok 2 := by
  constructor <;>
  · simp only [calculate_mach_from_area, if_true, if_false, Bool.false_eq_true]
    exact solve_newton_seed_exact _ _ _ 99 (by simp [mach_equation]) (by norm_num)

/-- C1, witness for the amended theorem at `gamma = 3`, `n = 1`. -/
theorem C1_witness :
    calculate_mach_from_area 3 1 (calculate_area_ratio 3 1 (1 / 2)) true =
      .ok (1 / 2) ∧
    calculate_mach_from_area 3 1 (calculate_area_ratio 3 1 2) false = .ok 2 :=
  C1_amended 3 1 (by decide)

/-- C2, counterexample: the claim fails as stated.  The Mach-from-area-ratio
root-finder of engineering_calculations.py (lines 112-126), called with
`gamma = 3` (exponent `1`) and `area_ratio = 1/2` (for which the residual is
bounded below by `1/2`, so no Mach number satisfies the equation), returns
its last iterate normally after 10 iterations although the residual is still
at least `1e-6` - a silent non-converged return, with no error signalled. -/
theorem C2_counterexample :
    exponent_matches 3 1 ∧ eng_returns_nonconverged 3 1 (1 / 2) = true :=
  ⟨by decide, by decide⟩

/-- C2, amended: the `_solve_newton` root-finder of flow_regimes.py does
satisfy the claim - whenever it returns normally the residual of the
returned value is below the tolerance, and otherwise it raises - but the
second Mach-from-area-ratio root-finder, in engineering_calculations.py,
violates it: it runs at most 10 iterations and then returns the last iterate
unconditionally (shown at `gamma = 3`, `area_ratio = 1/2`). -/
theorem C2_amended :
    (∀ (f : ℚ → ℚ) (tol x : ℚ) (k : ℕ) (y : ℚ),
      solve_newton f tol x k = .ok y → |f y| < tol) ∧
    eng_returns_nonconverged 3 1 (1 / 2) = true :=
  ⟨fun f tol x k y => solve_newton_ok_residual f tol k x y, by decide⟩

/-- C2, witness: the amended theorem applied to a concrete converging call
(`f x = x - 3` from seed `3` converges with no iteration). -/
theorem C2_witness : |(fun x : ℚ => x - 3) 3| < 1 :=
  C2_amended.1 (fun x => x - 3) 1 3 1 3 (by decide)

/-- C3, counterexample: the claim fails as stated.  At back pressure exactly
`P0 * critical_pressure_ratio` (with `P0 = 1000000` and concrete ratio
values `rcrit = 0.5283`, `rdesign = 0.0935`, rational standins in the range
the source guarantees: `0 < rdesign < rcrit ≤ 1`), the classifier's strict
comparison `back_pressure > inlet_pressure * critical_pressure_ratio` is
false, so it falls through to `"over-expanded"` - the `choked` boundary is
exclusive, not inclusive. -/
theorem C3_counterexample :
    (1000000 : ℚ) * (5283 / 10000) = 528300 ∧
    (0 : ℚ) < 935 / 10000 ∧ (935 / 10000 : ℚ) < 5283 / 10000 ∧
    (5283 / 10000 : ℚ) ≤ 1 ∧
    determine_flow_regime 1000000 528300 (5283 / 10000) (935 / 10000) =
      "over-expanded" ∧
    ("over-expanded" : String) ≠ "choked" := by
  refine ⟨by norm_num, by norm_num, by norm_num, by norm_num, by decide,
    by decide⟩

/-- C3, amended: the classifier's regions, as the code computes them, are:
`subsonic` iff `Pb > P0`; `choked` iff `P0 * rcrit < Pb ≤ P0`;
`over-expanded` iff `P0 * rdesign < Pb ≤ P0 * rcrit` (so exact equality
`Pb = P0 * rcrit` yields `over-expanded`, not `choked`); `under-expanded`
iff `Pb ≤ P0 * rdesign` - under the ordering `0 < rdesign < rcrit ≤ 1`
that the source's ratio computations guarantee. -/
theorem C3_amended (P0 Pb rcrit rdesign : ℚ) (hP0 : 0 < P0)
    (_hd : 0 < rdesign) (hdc : rdesign < rcrit) (hc1 : rcrit ≤ 1) :
    (determine_flow_regime P0 Pb rcrit rdesign = "subsonic" ↔ P0 < Pb) ∧
    (determine_flow_regime P0 Pb rcrit rdesign = "choked" ↔
      P0 * rcrit < Pb ∧ Pb ≤ P0) ∧
    (determine_flow_regime P0 Pb rcrit rdesign = "over-expanded" ↔
      P0 * rdesign < Pb ∧ Pb ≤ P0 * rcrit) ∧
    (determine_flow_regime P0 Pb rcrit rdesign = "under-expanded" ↔
      Pb ≤ P0 * rdesign) := by
  have hcp : P0 * rcrit ≤ P0 := by nlinarith
  have hdp : P0 * rdesign < P0 * rcrit := by nlinarith
  unfold determine_flow_regime
  split_ifs with h1 h2 h3
  · exact ⟨iff_of_true rfl h1,
      iff_of_false (by decide) (fun hx => by linarith [hx.2]),
      iff_of_false (by decide) (fun hx => by linarith [hx.2]),
      iff_of_false (by decide) (fun hx => by linarith)⟩
  · exact ⟨iff_of_false (by decide) h1,
      iff_of_true rfl ⟨h2, not_lt.mp h1⟩,
      iff_of_false (by decide) (fun hx => by linarith [hx.2]),
      iff_of_false (by decide) (fun hx => by linarith)⟩
  · exact ⟨iff_of_false (by decide) h1,
      iff_of_false (by decide) (fun hx => h2 hx.1),
      iff_of_true rfl ⟨h3, not_lt.mp h2⟩,
      iff_of_false (by decide) (fun hx => by linarith)⟩
  · exact ⟨iff_of_false (by decide) h1,
      iff_of_false (by decide) (fun hx => h2 hx.1),
      iff_of_false (by decide) (fun hx => h3 hx.1),
      iff_of_true rfl (not_lt.mp h3)⟩

/-- C3, witness for the amended theorem: a point strictly inside the choked
region classifies as `choked`. -/
theorem C3_witness : determine_flow_regime 100 60 (1 / 2) (1 / 8) = "choked" :=
  ((C3_amended 100 60 (1 / 2) (1 / 8) (by norm_num) (by norm_num) (by norm_num)
    (by norm_num)).2.1).mpr ⟨by norm_num, by norm_num⟩

/-- C7, counterexample: the claim fails as stated.  At
`area_ratio = 1.0` (with `gamma = 3`, exponent `1`) the subsonic-branch
solver does not return exactly `1.0`: there is no special case for the tie,
Newton iterates from the seed `0.5` and stops at an approximate root. -/
theorem C7_counterexample :
    exponent_matches 3 1 ∧
    calculate_mach_from_area 3 1 1 true ≠ NewtonResult.ok 1 :=
  ⟨by decide, by decide⟩

/-- C7, amended: at `area_ratio = 1.0` (`gamma = 3`) both branch requests
return normally with a value that satisfies the residual tolerance
`|area_ratio(m) - 1| < 1e-6` but differs from `1.0` - an approximate root
produced by iteration, not the exact tie-break value. -/
theorem C7_amended :
    solver_at_one 3 1 true = true ∧ solver_at_one 3 1 false = true :=
  ⟨by decide, by decide⟩

/-- Helper: the aerospike flow-area radius in closed form - the two cone
terms cancel the throat radius, leaving
`x * (tan(wall_angle in radians) - tan(spike_angle in radians))`. -/
theorem aerospike_radius_formula
    (throat_radius exit_radius length wall_angle spike_angle x : ℝ) :
    (Geometries.AerospikeNozzle.init throat_radius exit_radius length
      wall_angle spike_angle).get_radius x =
    x * (Real.tan (wall_angle * Real.pi / 180) -
      Real.tan (spike_angle * Real.pi / 180)) := by
  simp only [Geometries.AerospikeNozzle.get_radius,
    Geometries.AerospikeNozzle.init]
  ring

/-- Helper: the degree-to-radian tangent is strictly monotone on `[0, 90)`
degrees. -/
theorem tan_deg_strict_mono (a b : ℝ) (ha : 0 ≤ a) (hab : a < b)
    (hb : b < 90) : Real.tan (a * Real.pi / 180) <
      Real.tan (b * Real.pi / 180) := by
  have hpi := Real.pi_pos
  refine Real.tan_lt_tan_of_nonneg_of_lt_pi_div_two ?_ ?_ ?_
  · positivity
  · calc b * Real.pi / 180 < 90 * Real.pi / 180 := by gcongr
      _ = Real.pi / 2 := by ring
  · gcongr

/-- C6, counterexample: the claim fails as stated.  The aerospike
constructor with `throat_radius = 0.1`, `exit_radius = 0.3`, `length = 1`,
`wall_angle = 15`, `spike_angle = 20` (a spike steeper than the wall)
performs no validation and returns normally - no `InvalidGeometryError`
exists anywhere in the code - and the resulting effective flow-area radius
is `0` (not `> 0`) at `x = 0` and strictly negative at `x = 1 = length`. -/
theorem C6_counterexample :
    (Geometries.AerospikeNozzle.init (1 / 10) (3 / 10) 1 15 20).get_radius 0
        = 0 ∧
    (Geometries.AerospikeNozzle.init (1 / 10) (3 / 10) 1 15 20).get_radius 1
        < 0 := by
  constructor
  · rw [aerospike_radius_formula]; ring
  · rw [aerospike_radius_formula, one_mul, sub_neg]
    exact tan_deg_strict_mono 15 20 (by norm_num) (by norm_num) (by norm_num)

/-- C6, amended: the constructor stores its parameters without any
validation (it cannot fail), and the effective flow-area radius equals
`x * (tan(wall_angle) - tan(spike_angle))` (angles in radians): it is `0`
at `x = 0` for every input, and strictly negative for every `x > 0`
whenever `0 ≤ wall_angle < spike_angle < 90` - no input makes the
constructor raise an `InvalidGeometryError`. -/
theorem C6_amended
    (throat_radius exit_radius length wall_angle spike_angle : ℝ) :
    (∀ x : ℝ, (Geometries.AerospikeNozzle.init throat_radius exit_radius
        length wall_angle spike_angle).get_radius x =
      x * (Real.tan (wall_angle * Real.pi / 180) -
        Real.tan (spike_angle * Real.pi / 180))) ∧
    (Geometries.AerospikeNozzle.init throat_radius exit_radius length
        wall_angle spike_angle).get_radius 0 = 0 ∧
    (∀ x : ℝ, 0 ≤ wall_angle → wall_angle < spike_angle → spike_angle < 90 →
      0 < x →
      (Geometries.AerospikeNozzle.init throat_radius exit_radius length
        wall_angle spike_angle).get_radius x < 0) := by
  refine ⟨fun x => aerospike_radius_formula _ _ _ _ _ x, ?_, ?_⟩
  · rw [aerospike_radius_formula]; ring
  · intro x hw hws hs hx
    rw [aerospike_radius_formula]
    exact mul_neg_of_pos_of_neg hx
      (sub_neg.mpr (tan_deg_strict_mono _ _ hw hws hs))

/-- C6, witness for the amended theorem: at `wall_angle = 10`,
`spike_angle = 20`, the radius at `x = 2` is negative. -/
theorem C6_witness :
    (Geometries.AerospikeNozzle.init 0 1 2 10 20).get_radius 2 < 0 :=
  (C6_amended 0 1 2 10 20).2.2 2 (by norm_num) (by norm_num) (by norm_num)
    (by norm_num)

/-- C8: the conical radius function is purely angle-driven -
`radius_at(0) = throat_radius`,
`radius_at(length) = throat_radius + length * tan(wall_angle in radians)`,
and the radius at any position is unchanged when only the `exit_radius`
parameter is changed. -/
theorem C8_conical (throat_radius exit_radius length wall_angle : ℝ)
    (_hrt : 0 < throat_radius) (_hL : 0 < length) :
    (Geometries.ConicalNozzle.init throat_radius exit_radius length
        wall_angle).get_radius 0 = throat_radius ∧
    (Geometries.ConicalNozzle.init throat_radius exit_radius length
        wall_angle).get_radius length =
      throat_radius + length * Real.tan (wall_angle * Real.pi / 180) ∧
    ∀ (exit_radius' x : ℝ),
      (Geometries.ConicalNozzle.init throat_radius exit_radius length
        wall_angle).get_radius x =
      (Geometries.ConicalNozzle.init throat_radius exit_radius' length
        wall_angle).get_radius x := by
  refine ⟨?_, rfl, fun _ _ => rfl⟩
  simp [Geometries.ConicalNozzle.get_radius, Geometries.ConicalNozzle.init]

/-- C8, witness: the spec's literal conical instance `throat_radius = 0.1`,
`exit_radius = 0.3`, `wall_angle = 15`, `length = 1.0` has
`radius_at(0) = 0.1`. -/
theorem C8_witness :
    (Geometries.ConicalNozzle.init (1 / 10) (3 / 10) 1 15).get_radius 0 =
      1 / 10 :=
  (C8_conical (1 / 10) (3 / 10) 1 15 (by norm_num) (by norm_num)).1

/-- Helper: the keyword set `{area_ratio, chamber_state}` used at the call
site in `_generate_segments` does not bind against the parameter list
`(mach, total_pressure, total_temperature)` of
`FlowSolver.calculate_flow_properties`. -/
theorem kwargs_do_not_bind :
    NozzleGeo.py_kwargs_bind NozzleGeo.flow_properties_params
      NozzleGeo.generate_segments_kwargs = false := by decide

/-- Helper: `_generate_segments` fails with `TypeError` on every input: the
first loop iteration reaches the keyword call, whose binding fails. -/
theorem generate_segments_type_error
    (throat_radius exit_radius length divergence_angle : ℝ)
    (c : NozzleGeo.NGChamberState) (material : Material) :
    NozzleGeo.generate_segments throat_radius exit_radius length
      divergence_angle c material = .error .typeErr := rfl

/-- C9: `calculate_geometry` in nozzle_geometry.py raises `TypeError` for
every input before producing any `NozzleGeometry`: `_generate_segments`
invokes `flow_solver.calculate_flow_properties` with keyword arguments
`area_ratio` and `chamber_state` while that method's parameters are
`(mach, total_pressure, total_temperature)`, so the binding fails in the
first loop iteration. -/
theorem C9_type_error (divergence_angle length_ratio : ℝ)
    (c : NozzleGeo.NGChamberState) (material : Material) :
    NozzleGeo.calculate_geometry divergence_angle length_ratio c material =
      .error .typeErr := rfl

/-- C10: `calculate_performance_metrics` in engineering_calculations.py
never returns: for every input it fails with `AttributeError`, because
`calculate_thrust_coefficient` passes the float `gamma` to
`calculate_area_ratio`, whose body reads `gas_properties.gamma` from it.
(The efficiency expression that follows the failing call is the quotient of
two `calculate_thrust_coefficient` calls with identical arguments, which is
what the claim describes; no run reaches it.) -/
theorem C10_attribute_error (chamber : CombustionState)
    (back_pressure area_ratio divergence_angle : ℝ) :
    EngCalc.calculate_performance_metrics chamber back_pressure area_ratio
      divergence_angle = .error .attrErr := rfl

/-- Helper: the thrust coefficient at exit Mach `3/4`, exit pressure twice
the chamber pressure, ambient `0` and `gamma = 3` is exactly `47/16`
(`momentum = (3/4)*sqrt(25/16) = 15/16`, `pressure term = 2`). -/
theorem c5_thrust (P0 : ℝ) (h : P0 ≠ 0) :
    NozzleGeo.calculate_thrust_coefficient (2 * P0) (3 / 4) P0 0 3 =
      47 / 16 := by
  show (3 / 4 : ℝ) *
      Real.sqrt (2 / (3 - 1) * (1 + (3 - 1) / 2 * (3 / 4 : ℝ) ^ 2)) +
      (2 * P0 - 0) / P0 = 47 / 16
  rw [show 2 / ((3 : ℝ) - 1) * (1 + ((3 : ℝ) - 1) / 2 * (3 / 4 : ℝ) ^ 2) =
      (5 / 4 : ℝ) ^ 2 by norm_num,
    Real.sqrt_sq (by norm_num : (0 : ℝ) ≤ 5 / 4)]
  field_simp
  ring

/-- Helper: the ideal thrust coefficient at ambient `0`, `gamma = 3` is
exactly `3/2` (`0 ^ ((gamma-1)/gamma) = 0`, the remaining radicand is
`(3/2)^2`). -/
theorem c5_ideal (P0 : ℝ) (_h : P0 ≠ 0) :
    NozzleGeo.calculate_ideal_thrust_coefficient P0 0 3 = 3 / 2 := by
  show Real.sqrt (2 * (3 : ℝ) ^ 2 / (3 - 1) *
      (2 / (3 + 1)) ^ (((3 : ℝ) + 1) / (3 - 1)) *
      (1 - (0 / P0) ^ (((3 : ℝ) - 1) / 3))) = 3 / 2
  rw [zero_div, Real.zero_rpow (by norm_num : ((3 : ℝ) - 1) / 3 ≠ 0),
    show ((3 : ℝ) + 1) / (3 - 1) = ((2 : ℕ) : ℝ) by norm_num,
    Real.rpow_natCast,
    show 2 * (3 : ℝ) ^ 2 / (3 - 1) * (2 / (3 + 1)) ^ (2 : ℕ) * (1 - 0) =
      (3 / 2 : ℝ) ^ 2 by norm_num]
  exact Real.sqrt_sq (by norm_num)

/-- Helper: the efficiency entry the evaluator returns on the C5 family is
the plain quotient of the two coefficients. -/
theorem c5_efficiency_eq (P0 : ℝ) :
    (NozzleGeo.calculate_performance_metrics [c5_segment P0]
      (c5_chamber P0)).efficiency =
    NozzleGeo.calculate_thrust_coefficient (2 * P0) (3 / 4) P0 0 3 /
      NozzleGeo.calculate_ideal_thrust_coefficient P0 0 3 := rfl

/-- C5, counterexample: the claim fails as stated.  At chamber pressure
`1e6`, ambient pressure `0`, `gamma = 3` and an exit segment with Mach `3/4`
and exit static pressure `2e6`, the evaluator returns normally with
`efficiency = 47/24 > 1`, outside `(0, 1]` - it performs no range check and
no `InconsistentStateError` exists anywhere in the code. -/
theorem C5_counterexample :
    (NozzleGeo.calculate_performance_metrics [c5_segment 1000000]
      (c5_chamber 1000000)).efficiency = 47 / 24 ∧
    ¬((NozzleGeo.calculate_performance_metrics [c5_segment 1000000]
      (c5_chamber 1000000)).efficiency ≤ 1) := by
  have h1 : (NozzleGeo.calculate_performance_metrics [c5_segment 1000000]
      (c5_chamber 1000000)).efficiency = 47 / 24 := by
    rw [c5_efficiency_eq, c5_thrust 1000000 (by norm_num),
      c5_ideal 1000000 (by norm_num)]
    norm_num
  exact ⟨h1, by rw [h1]; norm_num⟩

/-- C5, amended: the performance evaluator of nozzle_geometry.py returns
its computed values unchecked - on the whole family of inputs with exit
pressure twice the chamber pressure, ambient `0`, `gamma = 3`, exit Mach
`3/4` it returns `efficiency = 47/24`, which exceeds `1`, and it signals
nothing (the code contains no `InconsistentStateError` and no clamping). -/
theorem C5_amended (P0 : ℝ) (hP0 : P0 ≠ 0) :
    (NozzleGeo.calculate_performance_metrics [c5_segment P0]
      (c5_chamber P0)).efficiency = 47 / 24 ∧
    1 < (NozzleGeo.calculate_performance_metrics [c5_segment P0]
      (c5_chamber P0)).efficiency := by
  have h1 : (NozzleGeo.calculate_performance_metrics [c5_segment P0]
      (c5_chamber P0)).efficiency = 47 / 24 := by
    rw [c5_efficiency_eq, c5_thrust P0 hP0, c5_ideal P0 hP0]
    norm_num
  exact ⟨h1, by rw [h1]; norm_num⟩

/-- C5, witness for the amended theorem at chamber pressure `5e5`. -/
theorem C5_witness :
    (NozzleGeo.calculate_performance_metrics [c5_segment 500000]
      (c5_chamber 500000)).efficiency = 47 / 24 :=
  (C5_amended 500000 (by norm_num)).1

/-- Helper: `cos (c * t) < 1` for a positive coefficient `c < 2π` and a
positive normalized position `t ≤ 1` (the cosine arguments of the Rao
contour's first parabolic section). -/
theorem cos_pos_arg_lt_one (c t : ℝ) (hc0 : 0 < c) (hc2 : c < 2 * Real.pi)
    (ht0 : 0 < t) (ht1 : t ≤ 1) : Real.cos (c * t) < 1 := by
  have h0 : 0 < c * t := mul_pos hc0 ht0
  have h2 : c * t < 2 * Real.pi := by nlinarith
  refine lt_of_le_of_ne (Real.cos_le_one _) fun heq => ?_
  have h3 := (Real.cos_eq_one_iff_of_lt_of_lt (by linarith) h2).mp heq
  linarith

/-- Helper: with `throat_radius = exit_radius = 1` the Rao contour is
constantly `1` on its third region (`x ≥ 0.6 * length`): the
`(exit_radius - throat_radius)` factor vanishes. -/
theorem rao_y_region3_one (x : ℚ) (h1 : ¬ x < 1 * (3 / 20))
    (h2 : ¬ x < 1 * (3 / 5)) : EngCalc.rao_contour_y 1 1 1 15 x = 1 := by
  unfold EngCalc.rao_contour_y
  rw [if_neg h1, if_neg h2]
  push_cast
  ring

/-- Helper: on the open part of the second region (`0.15 < x < 0.6` of a
unit-length contour with `throat_radius = 1` and a 15 degree wall angle)
the Rao contour lies strictly above the throat radius `1`: the cosine term
is strictly below `1`. -/
theorem rao_y_region2_gt_one (x : ℚ) (h3 : 3 / 20 < x) (h2q : x < 3 / 5) :
    1 < EngCalc.rao_contour_y 1 1 1 15 x := by
  have h1 : ¬ x < 1 * (3 / 20) := by rw [one_mul]; exact not_lt.mpr h3.le
  have h2 : x < 1 * (3 / 5) := by rwa [one_mul]
  unfold EngCalc.rao_contour_y
  rw [if_neg h1, if_pos h2]
  have hx1 : (3 / 20 : ℝ) < (x : ℝ) := by
    have h := Rat.cast_lt (K := ℝ) |>.mpr h3
    rwa [show ((3 / 20 : ℚ) : ℝ) = 3 / 20 by norm_num] at h
  have hx2 : ((x : ℝ)) < 3 / 5 := by
    have h := Rat.cast_lt (K := ℝ) |>.mpr h2q
    rwa [show ((3 / 5 : ℚ) : ℝ) = 3 / 5 by norm_num] at h
  have e1 : ((1 : ℚ) : ℝ) * (3 / 20) = 3 / 20 := by push_cast; ring
  have e2 : ((1 : ℚ) : ℝ) * (9 / 20) = 9 / 20 := by push_cast; ring
  rw [e1, e2]
  have hcos := cos_pos_arg_lt_one (((15 : ℚ) : ℝ) * Real.pi / 180)
    (((x : ℝ) - 3 / 20) / (9 / 20))
    (by push_cast; positivity)
    (by push_cast; nlinarith [Real.pi_pos])
    (div_pos (by linarith) (by norm_num))
    (by rw [div_le_one (by norm_num : (0 : ℝ) < 9 / 20)]; linarith)
  have e3 : ((1 : ℚ) : ℝ) = 1 := by push_cast; ring
  rw [e3]
  nlinarith [hcos]

/-- Helper: the value `np.interp` produces at the end position `28/45` of
diverging segment 5 (unit length, grid points `61/99` and `62/99`, both in
the third contour region) is exactly `1`. -/
theorem interp_at_end5 : EngCalc.interp_rao 1 1 1 15 (28 / 45) = 1 := by
  unfold EngCalc.interp_rao
  rw [if_neg (by norm_num), if_neg (by norm_num)]
  have hj : min 98 (EngCalc.rat_floor_nat (28 / 45 * 99 / 1)) = 61 := by decide
  dsimp only
  rw [hj]
  norm_num
  rw [rao_y_region3_one (61 / 99) (by norm_num) (by norm_num),
    rao_y_region3_one (62 / 99) (by norm_num) (by norm_num)]
  ring

/-- Helper: the value `np.interp` produces at the start position `19/36` of
diverging segment 5 (grid points `52/99` and `53/99`, both in the second
contour region) is strictly greater than `1`. -/
theorem interp_at_start5 : 1 < EngCalc.interp_rao 1 1 1 15 (19 / 36) := by
  unfold EngCalc.interp_rao
  rw [if_neg (by norm_num), if_neg (by norm_num)]
  have hj : min 98 (EngCalc.rat_floor_nat (19 / 36 * 99 / 1)) = 52 := by decide
  dsimp only
  rw [hj]
  norm_num
  have h52 := rao_y_region2_gt_one (52 / 99) (by norm_num) (by norm_num)
  have h53 := rao_y_region2_gt_one (53 / 99) (by norm_num) (by norm_num)
  nlinarith [h52, h53]

/-- Helper: the C4 counterexample's segment list written out. -/
theorem ce_segments_eq :
    ce_segments = EngCalc.throat_segment 1 1 chamber0 copper ::
      [1, 2, 3, 4, 5, 6, 7, 8, 9].map
        (EngCalc.div_segment 1 1 1 15 chamber0 copper) := by
  rw [ce_segments, EngCalc.calculate_segments,
    show List.range' 1 9 = [1, 2, 3, 4, 5, 6, 7, 8, 9] from rfl]

/-- Helper: the counterexample's list has the source's `N_SEGMENTS = 10`
entries. -/
theorem ce_segments_length : ce_segments.length = 10 := by
  rw [ce_segments_eq]; rfl

/-- Helper: entry 5 of the counterexample's list is diverging segment 5. -/
theorem ce_segments_getD_5 : ce_segments.getD 5 default =
    EngCalc.div_segment 1 1 1 15 chamber0 copper 5 := by
  rw [ce_segments_eq]; rfl

/-- Helper: diverging segment 5 starts at `x = 19/36` (its start radius is
the interpolated contour there). -/
theorem div5_start_radius :
    (EngCalc.div_segment 1 1 1 15 chamber0 copper 5).start_radius =
      EngCalc.interp_rao 1 1 1 15 (19 / 36) := by
  show EngCalc.interp_rao 1 1 1 15
    (1 * (3 / 20) + (((5 : ℕ) - 1 : ℕ) : ℚ) * ((1 - 1 * (3 / 20)) / 9)) = _
  norm_num

/-- Helper: diverging segment 5 ends at `x = 28/45`. -/
theorem div5_end_radius :
    (EngCalc.div_segment 1 1 1 15 chamber0 copper 5).end_radius =
      EngCalc.interp_rao 1 1 1 15 (28 / 45) := by
  show EngCalc.interp_rao 1 1 1 15
    (1 * (3 / 20) + ((5 : ℕ) : ℚ) * ((1 - 1 * (3 / 20)) / 9)) = _
  norm_num

/-- C4, counterexample: the claim fails as stated.  The segment list
produced by `calculate_segments` (engineering_calculations.py) for
`throat_radius = exit_radius = 1`, `length = 1`, `divergence_angle = 15` -
an expansion ratio of exactly 1, allowed by the spec's
`exit_radius ≥ throat_radius` - violates the diverging-section invariant:
segment 5 spans the downward jump of the Rao contour at `x = 0.6 * length`,
so its start radius (`> 1`) exceeds its end radius (`= 1`), and with it the
per-segment `area_ratio` decreases from segment 4 to segment 5. -/
theorem C4_counterexample : ¬ diverging_invariant ce_segments := by
  intro h
  have hse := h.2 5 (by norm_num) (by rw [ce_segments_length]; norm_num)
  rw [ce_segments_getD_5, div5_start_radius, div5_end_radius,
    interp_at_end5] at hse
  exact absurd interp_at_start5 (not_lt.mpr hse)

/-- C4, amended: the segment-geometry profile of the other generator,
`_generate_segments` in nozzle_geometry.py - radii from
`np.linspace(throat_radius, exit_radius, 50)` - does satisfy the claim
whenever `0 < throat_radius ≤ exit_radius`: the per-segment area ratio is
monotonically non-decreasing in the segment index and every segment has
`start_radius ≤ end_radius`; the Rao-contour-based generator of
engineering_calculations.py violates the claim (see the counterexample). -/
theorem C4_amended (rt re : ℝ) (hrt : 0 < rt) (hre : rt ≤ re) :
    (∀ i j : ℕ, i ≤ j →
      NozzleGeo.gen_area_ratio rt re i ≤ NozzleGeo.gen_area_ratio rt re j) ∧
    (∀ i : ℕ, NozzleGeo.gen_start_radius rt re i ≤
      NozzleGeo.gen_end_radius rt re i) := by
  have hden : (0 : ℝ) < ((50 : ℕ) : ℝ) - 1 := by norm_num
  have hmono : ∀ i j : ℕ, i ≤ j →
      NozzleGeo.linspace rt re 50 i ≤ NozzleGeo.linspace rt re 50 j := by
    intro i j hij
    unfold NozzleGeo.linspace
    have h1 : (re - rt) * (i : ℝ) ≤ (re - rt) * (j : ℝ) :=
      mul_le_mul_of_nonneg_left (Nat.cast_le.mpr hij) (by linarith)
    have h2 := (div_le_div_iff_of_pos_right hden).mpr h1
    linarith
  have hkey : ∀ k : ℕ, rt ≤ NozzleGeo.linspace rt re 50 k := by
    intro k
    unfold NozzleGeo.linspace
    have h0 : 0 ≤ (re - rt) * (k : ℝ) / (((50 : ℕ) : ℝ) - 1) :=
      div_nonneg (mul_nonneg (by linarith) (Nat.cast_nonneg k)) (by linarith)
    linarith
  refine ⟨fun i j hij => ?_, fun i => hmono i (i + 1) (Nat.le_succ i)⟩
  unfold NozzleGeo.gen_area_ratio NozzleGeo.gen_end_radius
  have h0 : 0 ≤ NozzleGeo.linspace rt re 50 (i + 1) / rt :=
    div_nonneg (le_trans hrt.le (hkey (i + 1))) hrt.le
  have h1 : NozzleGeo.linspace rt re 50 (i + 1) / rt ≤
      NozzleGeo.linspace rt re 50 (j + 1) / rt :=
    (div_le_div_iff_of_pos_right hrt).mpr (hmono (i + 1) (j + 1) (by omega))
  exact pow_le_pow_left₀ h0 h1 2

/-- C4, witness for the amended theorem at `throat_radius = 1`,
`exit_radius = 2`. -/
theorem C4_witness :
    NozzleGeo.gen_area_ratio 1 2 0 ≤ NozzleGeo.gen_area_ratio 1 2 3 ∧
    NozzleGeo.gen_start_radius 1 2 7 ≤ NozzleGeo.gen_end_radius 1 2 7 :=
  ⟨(C4_amended 1 2 (by norm_num) (by norm_num)).1 0 3 (by norm_num),
    (C4_amended 1 2 (by norm_num) (by norm_num)).2 7⟩

end NozzleDesign
